import Mathlib

/-!
Shallow embedding of `src/libcalamares/python/PythonJob.cpp` (Calamares Python
job adapter). The guest Python interpreter is modelled by the outcomes it can
produce at each point where the adapter interacts with it: the namespace left
behind by loading the script (`Scope`), the behaviour of calling a bound
object (`CallOutcome`), and the fallible steps of the lifecycle
(`ExecOutcome`). Host-visible observations are the returned `JobResult`
(or an escaping C++ exception, `ExecResult.escaped`) together with a trace of
lifecycle events (`Event`), which records interpreter acquisition, Host API
installation and progress emissions.
-/

set_option autoImplicit false

namespace Calamares

/-- Python values, at the granularity the adapter inspects them:
`none` (the `None` singleton, tested with `r.is(py::none())`), text values
(castable to `std::string`), integers and other non-sequence values, and the
two ordered sequences the adapter can convert with `PySequence_Tuple`. -/
inductive PyValue where
  | none
  | str (s : String)
  | int (n : Int)
  | tuple (xs : List PyValue)
  | list (xs : List PyValue)

/-- Outcome of calling a bound Python object with no arguments: it either
returns a value or raises (pybind11 throws `py::error_already_set`; calling a
non-callable binding also raises). -/
inductive CallOutcome where
  | ret (v : PyValue)
  | raise

/-- Behaviour of the `run` binding when invoked: the progress values the
script itself pushes through `libcalamares.job.setprogress` during the call,
followed by the call outcome. -/
structure RunBehavior where
  emits : List ℚ
  outcome : CallOutcome

/-- The `__main__` namespace after the guest script has been loaded: the
behaviour of a bound `pretty_name` when called (if bound), the value bound to
`__doc__` (if bound), and the behaviour of a bound `run` (if bound). -/
structure Scope where
  pretty_name : Option CallOutcome
  doc : Option PyValue
  run : Option RunBehavior

/-- Outcome of executing a block of guest code (`py::exec` of the pre-script,
`py::eval_file` of the main script): completes or raises. -/
inductive ExecOutcome where
  | ok
  | raise
  deriving DecidableEq

/-- Result of `getPrettyNameFromScope`: either a derived description string
(possibly empty), or an escaping `py::error_already_set` — the function
catches only `py::cast_error`, so a `pretty_name` that raises propagates. -/
inductive NameResult where
  | ok (s : String)
  | raised
  deriving DecidableEq

/-- `obj.cast<std::string>()`: succeeds exactly on text values, otherwise
throws `py::cast_error` (modelled as `Option.none`). -/
def castToText : PyValue → Option String
  | PyValue.str s => some s
  | _ => Option.none

/-- `QChar::isSpace` for the characters a script can plausibly contain:
space, tab, newline, vertical tab, form feed, carriage return. -/
def qIsSpace (c : Char) : Bool :=
  c = ' ' || c = '\t' || c = '\n' || c = '\x0b' || c = '\x0c' || c = '\r'

/-- `QString::trimmed`: the string with leading and trailing whitespace
removed. -/
def qtrimmed (s : String) : String :=
  String.mk (((s.data.dropWhile qIsSpace).reverse.dropWhile qIsSpace).reverse)

/-- Characters of a string up to (not including) the first newline. -/
def takeUntilNewline : List Char → List Char
  | [] => []
  | c :: cs => if c = '\n' then [] else c :: takeUntilNewline cs

/-- The `QString::indexOf / truncate` step of `getPrettyNameFromScope`: if
the (already trimmed) text contains a newline, the text before the first
newline is returned; with no newline the code falls through to the next
fallback (`Option.none`). -/
def firstLineBeforeNewline (t : String) : Option String :=
  if t.data.contains '\n' then some (String.mk (takeUntilNewline t.data)) else Option.none

/-- The `__doc__` fallback of `getPrettyNameFromScope` (second half of the
function): cast `__doc__` to text, trim whitespace, and return the part
before the first newline when one exists; any failure (no binding, cast
error, no newline found) falls through to the empty string. -/
def docDescription (doc : Option PyValue) : String :=
  match doc with
  | Option.none => ""
  | some v =>
    match castToText v with
    | Option.none => ""
    | some s =>
      match firstLineBeforeNewline (qtrimmed s) with
      | some firstLine => firstLine
      | Option.none => ""

/-- `getPrettyNameFromScope`: try a bound `pretty_name` first — its text
result is used when the cast succeeds, a cast failure falls through to
`__doc__`, and a raised Python exception propagates out (only
`py::cast_error` is caught). -/
def getPrettyNameFromScope (scope : Scope) : NameResult :=
  match scope.pretty_name with
  | some CallOutcome.raise => NameResult.raised
  | some (CallOutcome.ret v) =>
    match castToText v with
    | some s => NameResult.ok s
    | Option.none => NameResult.ok (docDescription scope.doc)
  | Option.none => NameResult.ok (docDescription scope.doc)

/-- Job result causes (`Calamares::JobResult`); only
`PythonUncaughtException` is used by this translation unit. -/
inductive Cause where
  | pythonUncaughtException
  deriving DecidableEq

/-- The host job-result type: `ok`, `error(summary, details)`, or
`internalError(summary, details, cause)`. -/
inductive JobResult where
  | ok
  | error (summary details : String)
  | internalError (summary details : String) (cause : Cause)
  deriving DecidableEq

/-- How a C++ exception can escape `Job::exec`: the rethrow when installing
the Host API fails, or a guest `py::error_already_set` not caught by any
handler on its path. -/
inductive Escape where
  | apiInstall
  | guestException
  deriving DecidableEq

/-- What a call to `Job::exec` produces at the host level: a structured
`JobResult`, or an escaping exception. -/
inductive ExecResult where
  | result (r : JobResult)
  | escaped (e : Escape)
  deriving DecidableEq

/-- Observable lifecycle events of one `Job::exec` call, in order:
interpreter acquisition (`py::scoped_interpreter`), Host API object
construction, pre-script execution, main-script load, description
derivation, progress emissions (`Q_EMIT progress(v)` and script-driven
`setprogress`), the lookup of the `run` binding, and its invocation. -/
inductive Event where
  | interpreterCreated
  | apiConstructed
  | preScriptExecuted
  | scriptLoaded
  | descriptionDerived
  | progress (v : ℚ)
  | runLookup
  | runInvoked
  deriving DecidableEq

/-- One execution environment for `Job::exec`: the job descriptor paths, the
outcome of each filesystem pre-check, whether installing the Host API
succeeds, the configured pre-script (absent, or its execution outcome), the
outcome of loading the main script, and the namespace the load leaves
behind. -/
structure Env where
  workingPath : String
  scriptFile : String
  workingDirOK : Bool
  scriptFileOK : Bool
  apiInstallOK : Bool
  preScript : Option ExecOutcome
  scriptLoad : ExecOutcome
  scope : Scope

/-- `QDir::dirName` of the working path: the last path component, ignoring
trailing slashes. -/
def dirName (path : String) : String :=
  String.mk (((path.data.reverse.dropWhile (fun c => c = '/')).takeWhile (fun c => c ≠ '/')).reverse)

/-- `Job::prettyName`: the leaf name of the working directory. -/
def Job.prettyName (env : Env) : String :=
  dirName env.workingPath

/-- `workingDir.absoluteFilePath(m_d->scriptFile)`: the script file resolved
against the working directory. -/
def scriptAbsolutePath (env : Env) : String :=
  env.workingPath ++ "/" ++ env.scriptFile

/-- Detail text of the bad-working-directory error (the `tr(...)` format with
`%1`, `%2` substituted). -/
def workingDirErrorDetail (env : Env) : String :=
  "Working directory " ++ env.workingPath ++ " for python job " ++ Job.prettyName env
    ++ " is not readable."

/-- Detail text of the bad-script-file pre-check error. -/
def scriptFileErrorDetail (env : Env) : String :=
  "Main script file " ++ scriptAbsolutePath env ++ " for python job " ++ Job.prettyName env
    ++ " is not readable."

/-- Detail text of the pre-script failure result. -/
def preScriptErrorDetail (env : Env) : String :=
  "Internal script for python job " ++ Job.prettyName env ++ " raised an exception."

/-- Detail text of the script-load failure result (the double space before
"exception" is verbatim from the source format string). -/
def loadErrorDetail (env : Env) : String :=
  "Main script file " ++ scriptAbsolutePath env ++ " for python job " ++ Job.prettyName env
    ++ " could not be loaded because it raised an  exception."

/-- Detail text of the run()-raised failure result. -/
def raisedErrorDetail (env : Env) : String :=
  "Main script file " ++ scriptAbsolutePath env ++ " for python job " ++ Job.prettyName env
    ++ " raised an exception."

/-- Detail text of the invalid-results error. -/
def invalidResultsDetail (env : Env) : String :=
  "Main script file " ++ scriptAbsolutePath env ++ " for python job " ++ Job.prettyName env
    ++ " returned invalid results."

/-- Detail text of the missing run() error. -/
def noRunFunctionDetail (env : Env) : String :=
  "Main script file " ++ scriptAbsolutePath env ++ " for python job " ++ Job.prettyName env
    ++ " does not contain a run() function."

/-- `const py::tuple items = r`: pybind11 converts a non-tuple via
`PySequence_Tuple`, which accepts tuples, lists and text (a Python string is
a sequence of one-character strings) and raises `py::error_already_set` for
non-sequences (modelled as `Option.none`). -/
def toTupleSeq : PyValue → Option (List PyValue)
  | PyValue.tuple xs => some xs
  | PyValue.list xs => some xs
  | PyValue.str s => some (s.data.map (fun c => PyValue.str (String.singleton c)))
  | _ => Option.none

/-- Modelled from the spec: the helper `asQString` lives in
`Pybind11Helpers.h`, which is not among the sources; per the spec the run()
result elements "must be a 2-element ordered sequence of text" and
"non-text elements" yield the invalid-results error, so `asQString` converts
a text value and fails (a cast error) on anything else. -/
def asQString : PyValue → Option String
  | PyValue.str s => some s
  | _ => Option.none

/-- The `asQString(items[0]), asQString(items[1])` step: both indexings must
be in range (an out-of-range tuple index raises) and both elements must cast
to text; any failure is `Option.none` (caught by the enclosing handlers). -/
def pairExtract (items : List PyValue) : Option (String × String) :=
  match items[0]?, items[1]? with
  | some i0, some i1 =>
    match asQString i0, asQString i1 with
    | some s0, some s1 => some (s0, s1)
    | _, _ => Option.none
  | _, _ => Option.none

/-- Translation of the value returned by a completed `run()` call
(lines 313–335 of `PythonJob.cpp`): `None` is success; otherwise the value is
converted to a tuple and its elements at indices 0 and 1 are converted to
text, giving `error(summary, details)`; every failure on that path
(`PySequence_Tuple` raising, an out-of-range index raising, a text cast
failing) lands in one of the two catch blocks, both of which report the same
invalid-results error — so the two failure stages are folded with `bind`. -/
def runReturnTranslate (env : Env) (v : PyValue) : JobResult :=
  match v with
  | PyValue.none => JobResult.ok
  | r =>
    match (toTupleSeq r).bind pairExtract with
    | some (s0, s1) => JobResult.error s0 s1
    | Option.none => JobResult.error "Bad main script file" (invalidResultsDetail env)

/-- A `run()` return value on which the translation of lines 313–335 raises
internally and is caught: not `None`, and not supplying two text elements at
indices 0 and 1 of its sequence conversion. -/
def malformedRunReturn (v : PyValue) : Bool :=
  match v with
  | PyValue.none => false
  | r => ((toTupleSeq r).bind pairExtract).isNone

/-- Events of a successful pre-script phase: one event when a pre-script is
configured and runs, none when no pre-script is configured. -/
def preScriptEvents (env : Env) : List Event :=
  if env.preScript = some ExecOutcome.ok then [Event.preScriptExecuted] else []

/-- Events up to and including a successful main-script load. -/
def preEvents (env : Env) : List Event :=
  [Event.interpreterCreated, Event.apiConstructed] ++ preScriptEvents env ++ [Event.scriptLoaded]

/-- Events of the run()-invocation phase: the invocation itself followed by
the progress values the script emits during the call. -/
def tailEvents (env : Env) : List Event :=
  match env.scope.run with
  | Option.none => []
  | some rb => Event.runInvoked :: rb.emits.map Event.progress

/-- The full event trace of an execution that reaches the run() invocation. -/
def fullTrace (env : Env) (rb : RunBehavior) : List Event :=
  preEvents env
    ++ [Event.descriptionDerived, Event.progress 0, Event.runLookup, Event.runInvoked]
    ++ rb.emits.map Event.progress

/-- `Job::exec` (lines 219–344 of `PythonJob.cpp`): validate the working
directory, then the resolved script file; acquire the interpreter; install
the Host API (a failure rethrows out of exec); run the configured pre-script;
load the main script; derive the description (a raising `pretty_name`
propagates, uncaught); emit progress 0; look up `run` and translate its
outcome. Returns the host-level outcome together with the event trace. -/
def Job.exec (env : Env) : ExecResult × List Event :=
  if env.workingDirOK = false then
    (ExecResult.result (JobResult.error "Bad working directory path" (workingDirErrorDetail env)),
      [])
  else if env.scriptFileOK = false then
    (ExecResult.result (JobResult.error "Bad main script file" (scriptFileErrorDetail env)),
      [])
  else if env.apiInstallOK = false then
    (ExecResult.escaped Escape.apiInstall, [Event.interpreterCreated])
  else if env.preScript = some ExecOutcome.raise then
    (ExecResult.result (JobResult.internalError "Bad internal script" (preScriptErrorDetail env)
        Cause.pythonUncaughtException),
      [Event.interpreterCreated, Event.apiConstructed])
  else
    match env.scriptLoad with
    | ExecOutcome.raise =>
      (ExecResult.result (JobResult.internalError "Bad main script file" (loadErrorDetail env)
          Cause.pythonUncaughtException),
        [Event.interpreterCreated, Event.apiConstructed] ++ preScriptEvents env)
    | ExecOutcome.ok =>
      match getPrettyNameFromScope env.scope with
      | NameResult.raised => (ExecResult.escaped Escape.guestException, preEvents env)
      | NameResult.ok _ =>
        match env.scope.run with
        | Option.none =>
          (ExecResult.result (JobResult.error "Bad main script file" (noRunFunctionDetail env)),
            preEvents env ++ [Event.descriptionDerived, Event.progress 0, Event.runLookup])
        | some rb =>
          match rb.outcome with
          | CallOutcome.raise =>
            (ExecResult.result (JobResult.internalError "Bad main script file"
                (raisedErrorDetail env) Cause.pythonUncaughtException),
              fullTrace env rb)
          | CallOutcome.ret v =>
            (ExecResult.result (runReturnTranslate env v), fullTrace env rb)

/-! ### Concrete executions used by counterexamples and witnesses -/

/-- An empty `__main__` namespace: no `pretty_name`, no `__doc__`, no `run`. -/
def emptyScope : Scope := ⟨Option.none, Option.none, Option.none⟩

/-- A fully valid environment (all pre-checks pass, no pre-script, the script
loads) with an empty namespace. -/
def baseEnv : Env :=
  { workingPath := "/modules/sample", scriptFile := "main.py", workingDirOK := true,
    scriptFileOK := true, apiInstallOK := true, preScript := Option.none,
    scriptLoad := ExecOutcome.ok, scope := emptyScope }

/-- A valid environment whose script binds a raising `pretty_name` and a
`run` that would return `None`. -/
def envPrettyNameRaises : Env :=
  { baseEnv with
    scope := ⟨some CallOutcome.raise, Option.none, some ⟨[], CallOutcome.ret PyValue.none⟩⟩ }

/-- A valid environment whose `run` returns the 3-element text tuple
`("a", "b", "c")`. -/
def envTuple3 : Env :=
  { baseEnv with
    scope := ⟨Option.none, Option.none,
      some ⟨[], CallOutcome.ret
        (PyValue.tuple [PyValue.str "a", PyValue.str "b", PyValue.str "c"])⟩⟩ }

/-- A valid environment whose `run` returns the integer 5. -/
def envIntReturn : Env :=
  { baseEnv with
    scope := ⟨Option.none, Option.none, some ⟨[], CallOutcome.ret (PyValue.int 5)⟩⟩ }

/-- A valid environment whose `run` returns the text pair
`("oops", "all broken")`. -/
def envErrorPair : Env :=
  { baseEnv with
    scope := ⟨Option.none, Option.none,
      some ⟨[], CallOutcome.ret
        (PyValue.tuple [PyValue.str "oops", PyValue.str "all broken"])⟩⟩ }

/-- A valid environment whose `run` returns `None`. -/
def envNoneReturn : Env :=
  { baseEnv with
    scope := ⟨Option.none, Option.none, some ⟨[], CallOutcome.ret PyValue.none⟩⟩ }

/-- A valid environment whose `run` raises. -/
def envRunRaises : Env :=
  { baseEnv with
    scope := ⟨Option.none, Option.none, some ⟨[], CallOutcome.raise⟩⟩ }

/-- An environment whose working directory does not exist or is unreadable. -/
def envBadWorkingDir : Env := { baseEnv with workingDirOK := false }

/-- A valid environment with a configured pre-script that raises. -/
def envPreScriptRaises : Env := { baseEnv with preScript := some ExecOutcome.raise }

/-! ### Helper lemmas -/

/-- A malformed return value is translated to the invalid-results error. -/
theorem runReturnTranslate_malformed (env : Env) (v : PyValue)
    (h : malformedRunReturn v = true) :
    runReturnTranslate env v
      = JobResult.error "Bad main script file" (invalidResultsDetail env) := by
  cases v with
  | none => exact absurd h (by simp [malformedRunReturn])
  | str s =>
    simp only [malformedRunReturn, Option.isNone_iff_eq_none] at h
    simp [runReturnTranslate, h]
  | int n =>
    simp only [malformedRunReturn, Option.isNone_iff_eq_none] at h
    simp [runReturnTranslate, h]
  | tuple xs =>
    simp only [malformedRunReturn, Option.isNone_iff_eq_none] at h
    simp [runReturnTranslate, h]
  | list xs =>
    simp only [malformedRunReturn, Option.isNone_iff_eq_none] at h
    simp [runReturnTranslate, h]

/-- A return value whose sequence conversion is a two-element list of text is
translated to the error carrying exactly those two strings. -/
theorem runReturnTranslate_pair (env : Env) (v : PyValue) (a b : String)
    (h : toTupleSeq v = some [PyValue.str a, PyValue.str b]) :
    runReturnTranslate env v = JobResult.error a b := by
  cases v <;> simp_all [runReturnTranslate, toTupleSeq, pairExtract, asQString]

/-- Whether an event is a progress emission. -/
def isProgress : Event → Bool
  | Event.progress _ => true
  | _ => false

/-- The events preceding the description-derivation step never include a
progress emission. -/
theorem preEvents_filter_isProgress (env : Env) :
    (preEvents env).filter isProgress = [] := by
  unfold preEvents preScriptEvents
  split <;> rfl

/-! ### Claims -/

/-- Claim C1: the claim states that a guest script whose `pretty_name`
raises still yields a structured Job Result from exec. The code violates
this: `getPrettyNameFromScope` catches only `py::cast_error`, so the
`py::error_already_set` thrown by a raising `pretty_name` propagates out of
`Job::exec` as a host-level exception, on an otherwise fully valid execution
whose script even defines a well-behaved `run`. -/
theorem pretty_name_raise_escapes_exec :
    (Job.exec envPrettyNameRaises).1 = ExecResult.escaped Escape.guestException
    ∧ Escape.guestException ≠ Escape.apiInstall := by
  exact ⟨rfl, by decide⟩

/-- Claim C2 counterexample: for a script with no `run` binding, the Error
summary produced by exec is the literal text "Bad main script file", not
"missing entry point" as the claim states. -/
theorem missing_run_summary_cx :
    (Job.exec baseEnv).1
      = ExecResult.result (JobResult.error "Bad main script file" (noRunFunctionDetail baseEnv))
    ∧ "Bad main script file" ≠ "missing entry point" := by
  exact ⟨rfl, by decide⟩

/-- Claim C2 (amended): for every script that loads successfully, whose
description derivation completes without raising, and that defines no
top-level `run` binding, exec returns an Error result with summary
"Bad main script file" and a detail stating the script does not contain a
run() function — regardless of `pretty_name` or `__doc__`. -/
theorem missing_run_yields_bad_main_script_error (env : Env)
    (h1 : env.workingDirOK = true) (h2 : env.scriptFileOK = true)
    (h3 : env.apiInstallOK = true) (h4 : env.preScript ≠ some ExecOutcome.raise)
    (h5 : env.scriptLoad = ExecOutcome.ok) (d : String)
    (h6 : getPrettyNameFromScope env.scope = NameResult.ok d)
    (h7 : env.scope.run = Option.none) :
    (Job.exec env).1
      = ExecResult.result (JobResult.error "Bad main script file" (noRunFunctionDetail env)) := by
  simp [Job.exec, h1, h2, h3, h4, h5, h6, h7]

/-- Witness for the amended Claim C2 at a concrete environment. -/
theorem missing_run_yields_bad_main_script_error_witness :
    (Job.exec baseEnv).1
      = ExecResult.result (JobResult.error "Bad main script file" (noRunFunctionDetail baseEnv)) :=
  missing_run_yields_bad_main_script_error baseEnv rfl rfl rfl (by decide) rfl "" rfl rfl

/-- Claim C3 counterexample: `run()` returning the 3-element text sequence
("a", "b", "c") — a sequence of length different from 2 — does not yield the
invalid-results error: exec returns an Error carrying the first two elements
and ignores the third. -/
theorem long_tuple_not_invalid_results_cx :
    (Job.exec envTuple3).1 = ExecResult.result (JobResult.error "a" "b")
    ∧ "a" ≠ "invalid results" := by
  exact ⟨rfl, by decide⟩

/-- Claim C3 (amended): for every invocation of run() whose return value is
neither `None` nor convertible to a sequence supplying two text elements at
indices 0 and 1 — a non-sequence value, a sequence of length less than 2, or
one whose first two elements are not both text — exec returns an Error with
summary "Bad main script file" and the returned-invalid-results detail.
A sequence of length greater than 2 whose first two elements are text
instead yields an Error carrying those two elements. -/
theorem malformed_run_return_invalid_results (env : Env) (rb : RunBehavior) (v : PyValue)
    (h1 : env.workingDirOK = true) (h2 : env.scriptFileOK = true)
    (h3 : env.apiInstallOK = true) (h4 : env.preScript ≠ some ExecOutcome.raise)
    (h5 : env.scriptLoad = ExecOutcome.ok) (d : String)
    (h6 : getPrettyNameFromScope env.scope = NameResult.ok d)
    (h7 : env.scope.run = some rb) (h8 : rb.outcome = CallOutcome.ret v)
    (h9 : malformedRunReturn v = true) :
    (Job.exec env).1
      = ExecResult.result (JobResult.error "Bad main script file" (invalidResultsDetail env)) := by
  simp [Job.exec, h1, h2, h3, h4, h5, h6, h7, h8,
    runReturnTranslate_malformed env v h9]

/-- Witness for the amended Claim C3: run() returning the integer 5. -/
theorem malformed_run_return_invalid_results_witness :
    (Job.exec envIntReturn).1
      = ExecResult.result
          (JobResult.error "Bad main script file" (invalidResultsDetail envIntReturn)) :=
  malformed_run_return_invalid_results envIntReturn
    ⟨[], CallOutcome.ret (PyValue.int 5)⟩ (PyValue.int 5)
    rfl rfl rfl (by decide) rfl "" rfl rfl rfl rfl

/-- Claim C4: for every invocation of run() returning a 2-element ordered
sequence of two text values (summary, details), exec returns an Error result
carrying exactly those two strings, unmodified, element 0 as the summary and
element 1 as the detail. -/
theorem run_error_pair_reported_exactly (env : Env) (rb : RunBehavior) (v : PyValue)
    (a b : String)
    (h1 : env.workingDirOK = true) (h2 : env.scriptFileOK = true)
    (h3 : env.apiInstallOK = true) (h4 : env.preScript ≠ some ExecOutcome.raise)
    (h5 : env.scriptLoad = ExecOutcome.ok) (d : String)
    (h6 : getPrettyNameFromScope env.scope = NameResult.ok d)
    (h7 : env.scope.run = some rb) (h8 : rb.outcome = CallOutcome.ret v)
    (h9 : toTupleSeq v = some [PyValue.str a, PyValue.str b]) :
    (Job.exec env).1 = ExecResult.result (JobResult.error a b) := by
  simp [Job.exec, h1, h2, h3, h4, h5, h6, h7, h8,
    runReturnTranslate_pair env v a b h9]

/-- Witness for Claim C4: run() returning ("oops", "all broken"). -/
theorem run_error_pair_reported_exactly_witness :
    (Job.exec envErrorPair).1 = ExecResult.result (JobResult.error "oops" "all broken") :=
  run_error_pair_reported_exactly envErrorPair
    ⟨[], CallOutcome.ret (PyValue.tuple [PyValue.str "oops", PyValue.str "all broken"])⟩
    (PyValue.tuple [PyValue.str "oops", PyValue.str "all broken"]) "oops" "all broken"
    rfl rfl rfl (by decide) rfl "" rfl rfl rfl rfl

/-- Claim C5: for every invocation of run() that returns `None`, exec
returns Success, for any otherwise-valid script. -/
theorem run_none_success (env : Env) (rb : RunBehavior)
    (h1 : env.workingDirOK = true) (h2 : env.scriptFileOK = true)
    (h3 : env.apiInstallOK = true) (h4 : env.preScript ≠ some ExecOutcome.raise)
    (h5 : env.scriptLoad = ExecOutcome.ok) (d : String)
    (h6 : getPrettyNameFromScope env.scope = NameResult.ok d)
    (h7 : env.scope.run = some rb) (h8 : rb.outcome = CallOutcome.ret PyValue.none) :
    (Job.exec env).1 = ExecResult.result JobResult.ok := by
  simp [Job.exec, h1, h2, h3, h4, h5, h6, h7, h8, runReturnTranslate]

/-- Witness for Claim C5 at a concrete environment. -/
theorem run_none_success_witness :
    (Job.exec envNoneReturn).1 = ExecResult.result JobResult.ok :=
  run_none_success envNoneReturn ⟨[], CallOutcome.ret PyValue.none⟩
    rfl rfl rfl (by decide) rfl "" rfl rfl rfl

/-- Claim C6: for every invocation of run() that raises, exec catches the
exception and returns an InternalError with cause
`PythonUncaughtException`, whose detail message contains the host job's
pretty name. -/
theorem run_raise_internal_error (env : Env) (rb : RunBehavior)
    (h1 : env.workingDirOK = true) (h2 : env.scriptFileOK = true)
    (h3 : env.apiInstallOK = true) (h4 : env.preScript ≠ some ExecOutcome.raise)
    (h5 : env.scriptLoad = ExecOutcome.ok) (d : String)
    (h6 : getPrettyNameFromScope env.scope = NameResult.ok d)
    (h7 : env.scope.run = some rb) (h8 : rb.outcome = CallOutcome.raise) :
    (Job.exec env).1
      = ExecResult.result (JobResult.internalError "Bad main script file"
          (raisedErrorDetail env) Cause.pythonUncaughtException)
    ∧ ∃ p q, raisedErrorDetail env = p ++ Job.prettyName env ++ q := by
  constructor
  · simp [Job.exec, h1, h2, h3, h4, h5, h6, h7, h8]
  · refine ⟨"Main script file " ++ scriptAbsolutePath env ++ " for python job ",
      " raised an exception.", ?_⟩
    simp [raisedErrorDetail, String.append_assoc]

/-- Witness for Claim C6 at a concrete environment. -/
theorem run_raise_internal_error_witness :
    (Job.exec envRunRaises).1
      = ExecResult.result (JobResult.internalError "Bad main script file"
          (raisedErrorDetail envRunRaises) Cause.pythonUncaughtException)
    ∧ ∃ p q, raisedErrorDetail envRunRaises = p ++ Job.prettyName envRunRaises ++ q :=
  run_raise_internal_error envRunRaises ⟨[], CallOutcome.raise⟩
    rfl rfl rfl (by decide) rfl "" rfl rfl rfl

/-- Claim C7: the claim states that a non-empty one-line `__doc__` with no
newline yields that line as the description. The code violates this: the
`__doc__` branch returns a prefix only when the trimmed text contains a
newline, and otherwise falls through (under a comment asserting the text is
"apparently empty"), so a non-empty single-line docstring yields the empty
description — while a multi-line docstring does yield its first line. -/
theorem single_line_doc_yields_empty_description :
    getPrettyNameFromScope ⟨Option.none, some (PyValue.str "Single line doc"), Option.none⟩
      = NameResult.ok ""
    ∧ getPrettyNameFromScope
        ⟨Option.none, some (PyValue.str "First line.\nSecond line."), Option.none⟩
      = NameResult.ok "First line." := by
  exact ⟨by decide, by decide⟩

/-- Claim C8: for every non-existent or unreadable working directory, and
for every resolved script path that fails the file pre-check, exec returns a
plain Error result (not an InternalError) with an empty event trace — so
before any interpreter is created and before any Host API object is
constructed. -/
theorem precheck_failure_plain_error_no_interpreter (env : Env)
    (h : env.workingDirOK = false ∨ env.scriptFileOK = false) :
    (Job.exec env).2 = []
    ∧ Event.interpreterCreated ∉ (Job.exec env).2
    ∧ Event.apiConstructed ∉ (Job.exec env).2
    ∧ ∃ s d, (Job.exec env).1 = ExecResult.result (JobResult.error s d) := by
  have key : ∃ s d, Job.exec env = (ExecResult.result (JobResult.error s d), []) := by
    rcases h with h | h
    · exact ⟨"Bad working directory path", workingDirErrorDetail env, by simp [Job.exec, h]⟩
    · rcases hw : env.workingDirOK with _ | _
      · exact ⟨"Bad working directory path", workingDirErrorDetail env, by simp [Job.exec, hw]⟩
      · exact ⟨"Bad main script file", scriptFileErrorDetail env, by simp [Job.exec, hw, h]⟩
  obtain ⟨s, d, hsd⟩ := key
  refine ⟨by rw [hsd], by rw [hsd]; simp, by rw [hsd]; simp, s, d, by rw [hsd]⟩

/-- Witness for Claim C8: a missing working directory. -/
theorem precheck_failure_plain_error_no_interpreter_witness :
    (Job.exec envBadWorkingDir).2 = []
    ∧ Event.interpreterCreated ∉ (Job.exec envBadWorkingDir).2
    ∧ Event.apiConstructed ∉ (Job.exec envBadWorkingDir).2
    ∧ ∃ s d, (Job.exec envBadWorkingDir).1 = ExecResult.result (JobResult.error s d) :=
  precheck_failure_plain_error_no_interpreter envBadWorkingDir (Or.inl rfl)

/-- Claim C9: a configured pre-script that raises, and a guest script that
raises while being loaded, both make exec return an InternalError with cause
`PythonUncaughtException`, and in neither case is the entry point invoked. -/
theorem setup_raise_internal_error_no_run (env : Env)
    (h1 : env.workingDirOK = true) (h2 : env.scriptFileOK = true)
    (h3 : env.apiInstallOK = true)
    (h : env.preScript = some ExecOutcome.raise
         ∨ (env.preScript ≠ some ExecOutcome.raise ∧ env.scriptLoad = ExecOutcome.raise)) :
    (∃ s d, (Job.exec env).1
        = ExecResult.result (JobResult.internalError s d Cause.pythonUncaughtException))
    ∧ Event.runInvoked ∉ (Job.exec env).2 := by
  rcases h with h | ⟨h4, h5⟩
  · constructor
    · exact ⟨"Bad internal script", preScriptErrorDetail env,
        by simp [Job.exec, h1, h2, h3, h]⟩
    · simp [Job.exec, h1, h2, h3, h]
  · constructor
    · exact ⟨"Bad main script file", loadErrorDetail env,
        by simp [Job.exec, h1, h2, h3, h4, h5]⟩
    · simp only [Job.exec, h1, h2, h3, h5]
      simp [h4, preScriptEvents]

/-- Witness for Claim C9: a raising pre-script. -/
theorem setup_raise_internal_error_no_run_witness :
    (∃ s d, (Job.exec envPreScriptRaises).1
        = ExecResult.result (JobResult.internalError s d Cause.pythonUncaughtException))
    ∧ Event.runInvoked ∉ (Job.exec envPreScriptRaises).2 :=
  setup_raise_internal_error_no_run envPreScriptRaises rfl rfl rfl (Or.inl rfl)

/-- Claim C10 counterexample: a script that loads successfully but whose
`pretty_name` raises reaches neither the progress-0 emission nor a result:
the trace records the successful load yet contains no progress event at all,
and exec escapes with the guest exception. -/
theorem no_progress_when_derivation_raises_cx :
    Event.scriptLoaded ∈ (Job.exec envPrettyNameRaises).2
    ∧ (Job.exec envPrettyNameRaises).2.filter isProgress = []
    ∧ (Job.exec envPrettyNameRaises).1 = ExecResult.escaped Escape.guestException := by
  exact ⟨by decide, by decide, rfl⟩

/-- Claim C10 (amended): on every execution whose guest script loads
successfully and whose description derivation completes without raising, the
trace of exec is the load prefix, then exactly the three events
description-derived, progress 0, run-lookup, then the run-phase events — so
exec emits exactly one progress update with value 0 after deriving the
description and before looking up the `run` binding, even when the entry
point turns out to be absent; no progress event precedes it. -/
theorem progress_zero_emitted_once_before_run_lookup (env : Env)
    (h1 : env.workingDirOK = true) (h2 : env.scriptFileOK = true)
    (h3 : env.apiInstallOK = true) (h4 : env.preScript ≠ some ExecOutcome.raise)
    (h5 : env.scriptLoad = ExecOutcome.ok) (d : String)
    (h6 : getPrettyNameFromScope env.scope = NameResult.ok d) :
    (Job.exec env).2
      = preEvents env ++ [Event.descriptionDerived, Event.progress 0, Event.runLookup]
          ++ tailEvents env
    ∧ (preEvents env).filter isProgress = [] := by
  refine ⟨?_, preEvents_filter_isProgress env⟩
  rcases hr : env.scope.run with _ | rb
  · simp [Job.exec, h1, h2, h3, h4, h5, h6, hr, tailEvents, List.append_assoc]
  · rcases rb with ⟨emits, outcome⟩
    cases outcome <;>
      simp [Job.exec, h1, h2, h3, h4, h5, h6, hr, tailEvents, fullTrace, List.append_assoc]

/-- Witness for the amended Claim C10 at a concrete environment with no
`run` binding. -/
theorem progress_zero_emitted_once_before_run_lookup_witness :
    (Job.exec baseEnv).2
      = preEvents baseEnv ++ [Event.descriptionDerived, Event.progress 0, Event.runLookup]
          ++ tailEvents baseEnv
    ∧ (preEvents baseEnv).filter isProgress = [] :=
  progress_zero_emitted_once_before_run_lookup baseEnv rfl rfl rfl (by decide) rfl "" rfl

end Calamares
